import Mathlib

/-!
Verification of the transit-ITS synthetic data generators.

The two scripts (generate_baseline_data.py, generate_realistic_data.py) walk a
weekly Monday grid from 2020-01-06 to 2024-12-30 and emit one observation per
(route, week).  Calendar dates are embedded as day offsets from 2020-01-01
(so the start date is offset 5); Gaussian noise draws are abstracted as an
arbitrary per-row rational (baseline) or real (realistic) parameter, and the
properties below hold for every choice of noise.
-/

set_option maxRecDepth 8000

namespace TransitITS

/-! ### Gregorian calendar, mirroring the Python datetime arithmetic -/

def isLeap (y : ℕ) : Bool := y % 4 == 0 && (y % 100 != 0 || y % 400 == 0)

def daysInMonth (y : ℕ) (m : ℕ) : ℕ :=
  if m = 1 then 31
  else if m = 2 then (if isLeap y then 29 else 28)
  else if m = 3 then 31
  else if m = 4 then 30
  else if m = 5 then 31
  else if m = 6 then 30
  else if m = 7 then 31
  else if m = 8 then 31
  else if m = 9 then 30
  else if m = 10 then 31
  else if m = 11 then 30
  else if m = 12 then 31
  else 0

def daysInYear (y : ℕ) : ℕ := if isLeap y then 366 else 365

/-- Total days in the years 2020, 2021, ..., 2019 + k. -/
def daysFrom2020 : ℕ → ℕ
  | 0 => 0
  | k + 1 => daysFrom2020 k + daysInYear (2020 + k)

def daysBeforeYear (y : ℕ) : ℕ := daysFrom2020 (y - 2020)

def daysBeforeMonth (y : ℕ) : ℕ → ℕ
  | 0 => 0
  | m + 1 => daysBeforeMonth y m + daysInMonth y m

/-- Day offset from 2020-01-01 of the calendar date y-m-d. -/
def toOffset (y m d : ℕ) : ℕ := daysBeforeYear y + daysBeforeMonth y m + (d - 1)

/-- Fuel-driven year finder: peel whole years off a day offset. -/
def yearDoyAux : ℕ → ℕ → ℕ → ℕ × ℕ
  | 0, y, d => (y, d)
  | fuel + 1, y, d =>
      if d < daysInYear y then (y, d) else yearDoyAux fuel (y + 1) (d - daysInYear y)

def yearDoy (d : ℕ) : ℕ × ℕ := yearDoyAux d 2020 d

/-- Fuel-driven month finder: peel whole months off a day-of-year. -/
def monthFromDoy (y : ℕ) : ℕ → ℕ → ℕ → ℕ
  | 0, m, _ => m
  | fuel + 1, m, doy =>
      if doy < daysInMonth y m then m else monthFromDoy y fuel (m + 1) (doy - daysInMonth y m)

/-- Calendar month (1..12) of a day offset, as Python date.month. -/
def monthOf (off : ℕ) : ℕ := monthFromDoy (yearDoy off).1 11 1 (yearDoy off).2

/-! ### The weekly date grid shared by both scripts -/

def START_DATE : ℕ := toOffset 2020 1 6

def END_DATE : ℕ := toOffset 2024 12 30

def INTERVENTION_DATE : ℕ := toOffset 2024 1 1

/-- Fuel-driven image of the generation loop:
while current <= end: append current; current += 7 days. -/
def mkDatesAux : ℕ → ℕ → ℕ → List ℕ
  | 0, _, _ => []
  | fuel + 1, e, cur => if cur ≤ e then cur :: mkDatesAux fuel e (cur + 7) else []

def dates : List ℕ := mkDatesAux (END_DATE + 1) END_DATE START_DATE

theorem START_DATE_eq : START_DATE = 5 := by decide

theorem END_DATE_eq : END_DATE = 1825 := by decide

theorem INTERVENTION_DATE_eq : INTERVENTION_DATE = 1461 := by decide

theorem dates_eq : dates = (List.range 261).map (fun i => 5 + 7 * i) := by decide

theorem dates_length : dates.length = 261 := by rw [dates_eq]; simp

theorem dates_nodup : dates.Nodup := by
  rw [dates_eq]
  exact (List.nodup_range 261).map (fun a b h => by omega)

theorem mem_dates {d : ℕ} (h : d ∈ dates) : ∃ k, k < 261 ∧ d = 5 + 7 * k := by
  rw [dates_eq] at h
  simp only [List.mem_map, List.mem_range] at h
  obtain ⟨k, hk, rfl⟩ := h
  exact ⟨k, hk, rfl⟩

theorem grid_mem_dates {k : ℕ} (h : k < 261) : 5 + 7 * k ∈ dates := by
  rw [dates_eq]
  exact List.mem_map.mpr ⟨k, List.mem_range.mpr h, rfl⟩

theorem dates_getElem? {k : ℕ} (h : k < 261) : dates[k]? = some (5 + 7 * k) := by
  rw [dates_eq]
  simp [List.getElem?_map, List.getElem?_range h]

/-! ### Routes and shared row machinery -/

inductive Route
  | Downtown
  | Suburban
  | CrossTown
deriving DecidableEq

def routeName : Route → String
  | .Downtown => "Downtown"
  | .Suburban => "Suburban"
  | .CrossTown => "Cross-town"

/-- post_intervention = 1 if date >= INTERVENTION_DATE else 0, as in both scripts. -/
def postIntervention (d : ℕ) : ℕ := if INTERVENTION_DATE ≤ d then 1 else 0

/-- max(0, (date - intervention_date).days / 7), the raw weeks-since value. -/
def tsiRaw (d : ℕ) : ℚ := max 0 (((d : ℚ) - (INTERVENTION_DATE : ℚ)) / 7)

/-- Python int(): truncation toward zero. -/
def pyInt (q : ℚ) : ℤ := if 0 ≤ q then ⌊q⌋ else -⌊-q⌋

/-- Python round(x, 1): round to one decimal place.  Mathlib round is
half-up where Python floats use half-even; the two can differ only on exact
.x5 ties, which does not affect any property proved here. -/
def round1 (q : ℚ) : ℚ := (round (10 * q) : ℚ) / 10

/-- enumerate(dates): apply a row builder to each (index, date) pair. -/
def buildRows {β : Type} (f : ℕ → ℕ → β) : ℕ → List ℕ → List β
  | _, [] => []
  | i, d :: ds => f i d :: buildRows f (i + 1) ds

theorem buildRows_length {β : Type} (f : ℕ → ℕ → β) :
    ∀ (l : List ℕ) (i : ℕ), (buildRows f i l).length = l.length := by
  intro l
  induction l with
  | nil => intro i; rfl
  | cons d ds ih => intro i; simp [buildRows, ih]

theorem buildRows_getElem? {β : Type} (f : ℕ → ℕ → β) :
    ∀ (l : List ℕ) (i k : ℕ), (buildRows f i l)[k]? = l[k]?.map (fun d => f (i + k) d) := by
  intro l
  induction l with
  | nil => intro i k; simp [buildRows]
  | cons d ds ih =>
      intro i k
      cases k with
      | zero => simp [buildRows]
      | succ k =>
          have h2 : i + 1 + k = i + (k + 1) := by omega
          simp only [buildRows, List.getElem?_cons_succ, ih (i + 1) k, h2]

theorem mem_buildRows {β : Type} (f : ℕ → ℕ → β) :
    ∀ (l : List ℕ) (i : ℕ) (b : β), b ∈ buildRows f i l → ∃ j d, d ∈ l ∧ b = f j d := by
  intro l
  induction l with
  | nil => intro i b h; simp [buildRows] at h
  | cons d ds ih =>
      intro i b h
      simp only [buildRows, List.mem_cons] at h
      rcases h with h | h
      · exact ⟨i, d, List.mem_cons_self d ds, h⟩
      · obtain ⟨j, d', hd', hb⟩ := ih (i + 1) b h
        exact ⟨j, d', List.mem_cons_of_mem d hd', hb⟩

theorem buildRows_map_index {β : Type} (f : ℕ → ℕ → β) (g : β → ℕ)
    (h : ∀ i d, g (f i d) = i) :
    ∀ (l : List ℕ) (i : ℕ), (buildRows f i l).map g = List.range' i l.length := by
  intro l
  induction l with
  | nil => intro i; rfl
  | cons d ds ih =>
      intro i
      simp [buildRows, h, ih, List.range'_succ]

theorem buildRows_countP {β : Type} (f : ℕ → ℕ → β) (q : β → Bool) (p : ℕ → Bool)
    (h : ∀ i d, q (f i d) = p d) :
    ∀ (l : List ℕ) (i : ℕ), (buildRows f i l).countP q = l.countP p := by
  intro l
  induction l with
  | nil => intro i; rfl
  | cons d ds ih =>
      intro i
      simp [buildRows, List.countP_cons, h, ih]

/-! ### Baseline generator (generate_baseline_data.py) -/

structure BaselineParams where
  base_ridership : ℚ
  pre_trend : ℚ
  treatment_effect : ℚ
  slope_change : ℚ
  noise_std : ℚ

def baselineParams : Route → BaselineParams
  | .Downtown => ⟨500, 2.45, 300, 0, 20⟩
  | .Suburban => ⟨400, 1.67, 200, 0, 15⟩
  | .CrossTown => ⟨300, 1.09, 150, 0, 12⟩

/-- The deterministic part of the baseline ridership for route r at grid
index i and date offset d: base + trend, the two seasonal dips, and the
treatment terms when post-intervention. -/
def ridershipPreNoiseB (r : Route) (i : ℕ) (d : ℕ) : ℚ :=
  let p := baselineParams r
  let r1 := p.base_ridership + p.pre_trend * (i : ℚ)
  let m := monthOf d
  let r2 := if m = 6 ∨ m = 7 ∨ m = 8 then r1 - 30 else r1
  let r3 := if m = 12 ∨ m = 1 then r2 - 20 else r2
  if postIntervention d = 1 then
    r3 + p.treatment_effect + p.slope_change * tsiRaw d
  else r3

structure BaselineRow where
  date : ℕ
  route_type : String
  avg_ridership : ℚ
  post_intervention : ℕ
  time : ℕ
  time_since_intervention : ℤ
deriving DecidableEq

def baselineRow (noise : ℚ) (r : Route) (i : ℕ) (d : ℕ) : BaselineRow :=
  { date := d
    route_type := routeName r
    avg_ridership := round1 (ridershipPreNoiseB r i d + noise)
    post_intervention := postIntervention d
    time := i
    time_since_intervention := pyInt (tsiRaw d) }

def baselineRows (noise : ℕ → ℚ) (r : Route) : List BaselineRow :=
  buildRows (fun i d => baselineRow (noise i) r i d) 0 dates

/-- All baseline rows in generation order (route-major: Downtown, Suburban,
Cross-town; chronological within each route). -/
def baselineData (noise : Route → ℕ → ℚ) : List BaselineRow :=
  baselineRows (noise .Downtown) .Downtown
    ++ baselineRows (noise .Suburban) .Suburban
    ++ baselineRows (noise .CrossTown) .CrossTown

/-- Column order of the baseline CSV (dict insertion order of data.append). -/
def baselineColumns : List String :=
  ["date", "route_type", "avg_ridership", "post_intervention", "time",
   "time_since_intervention"]

/-- The sort key of df.sort_values on route_type then date: pandas compares
the route strings lexicographically, ties broken by date. -/
def pandasKeyLE (a b : BaselineRow) : Prop :=
  a.route_type < b.route_type ∨ (a.route_type = b.route_type ∧ a.date ≤ b.date)

instance : DecidableRel pandasKeyLE := fun a b => by
  unfold pandasKeyLE; infer_instance

instance : IsTotal BaselineRow pandasKeyLE := by
  constructor
  intro a b
  rcases lt_trichotomy a.route_type b.route_type with h | h | h
  · exact Or.inl (Or.inl h)
  · rcases le_total a.date b.date with h2 | h2
    · exact Or.inl (Or.inr ⟨h, h2⟩)
    · exact Or.inr (Or.inr ⟨h.symm, h2⟩)
  · exact Or.inr (Or.inl h)

instance : IsTrans BaselineRow pandasKeyLE := by
  constructor
  intro a b c hab hbc
  rcases hab with h1 | ⟨h1, h1d⟩
  · rcases hbc with h2 | ⟨h2, _⟩
    · exact Or.inl (h1.trans h2)
    · exact Or.inl (h2 ▸ h1)
  · rcases hbc with h2 | ⟨h2, h2d⟩
    · exact Or.inl (h1 ▸ h2)
    · exact Or.inr ⟨h1.trans h2, h1d.trans h2d⟩

/-- df.sort_values(["route_type", "date"]): a permutation of the rows that is
sorted under the pandas key order. -/
def sortedBaselineData (noise : Route → ℕ → ℚ) : List BaselineRow :=
  List.insertionSort pandasKeyLE (baselineData noise)

/-! ### Realistic generator (generate_realistic_data.py) -/

structure RealisticParams where
  baseline : ℚ
  pre_trend : ℚ
  treatment_effect : ℚ
  slope_change : ℚ
  noise_std : ℚ
  seasonality_amp : ℚ

def realisticParams : Route → RealisticParams
  | .Downtown => ⟨500, 2.45, 50, 0, 60, 80⟩
  | .Suburban => ⟨400, 1.67, 30, 0, 45, 60⟩
  | .CrossTown => ⟨300, 1.09, 15, 0, 36, 40⟩

def COMPETITOR_DATE : ℕ := toOffset 2023 7 1

def COMPETITOR_RAMP_WEEKS : ℚ := 8

def competitorMax : Route → ℚ
  | .Downtown => -15
  | .Suburban => -8
  | .CrossTown => -3

def GAS_START : ℕ := toOffset 2022 3 1

def GAS_DURATION_WEEKS : ℕ := 16

/-- spike_start + timedelta(weeks=16). -/
def GAS_END : ℕ := GAS_START + 7 * GAS_DURATION_WEEKS

def gasPeak : Route → ℚ
  | .Downtown => 12
  | .Suburban => 18
  | .CrossTown => 10

def WINTER_START : ℕ := toOffset 2023 1 1

def WINTER_END : ℕ := WINTER_START + 7 * 8

def winterEffectSize : Route → ℚ
  | .Downtown => -20
  | .Suburban => -25
  | .CrossTown => -15

theorem COMPETITOR_DATE_eq : COMPETITOR_DATE = 1277 := by decide

theorem GAS_START_eq : GAS_START = 790 := by decide

theorem GAS_END_eq : GAS_END = 902 := by decide

/-- Competitor bus service: zero before launch; then ramps linearly over
ramp_weeks and stays at the per-route maximum. -/
def apply_competitor_effect (d : ℕ) (r : Route) : ℚ :=
  if d < COMPETITOR_DATE then 0
  else
    let weeks_since : ℚ := ((d : ℚ) - (COMPETITOR_DATE : ℚ)) / 7
    if weeks_since ≤ COMPETITOR_RAMP_WEEKS then
      competitorMax r * (weeks_since / COMPETITOR_RAMP_WEEKS)
    else competitorMax r

/-- Gas price spike: zero outside [spike_start, spike_end]; inside,
peak * sin(progress * pi) with progress the fractional elapsed time. -/
noncomputable def apply_gas_spike_effect (d : ℕ) (r : Route) : ℝ :=
  if d < GAS_START ∨ GAS_END < d then 0
  else
    let weeks_in : ℝ := ((d : ℝ) - (GAS_START : ℝ)) / 7
    let progress : ℝ := weeks_in / (GAS_DURATION_WEEKS : ℝ)
    (gasPeak r : ℝ) * Real.sin (progress * Real.pi)

/-- Severe winter: flat per-route offset inside [winter_start, winter_end]. -/
def apply_severe_winter_effect (d : ℕ) (r : Route) : ℚ :=
  if d < WINTER_START ∨ WINTER_END < d then 0 else winterEffectSize r

/-- weeks_since_intervention = max(0, days/7) if post_intervention else 0. -/
def wsiR (d : ℕ) : ℚ := if postIntervention d = 1 then tsiRaw d else 0

/-- Seasonality of the realistic script: -amp in summer, -amp*0.7 in winter. -/
def seasonalityR (r : Route) (d : ℕ) : ℚ :=
  let m := monthOf d
  if m = 6 ∨ m = 7 ∨ m = 8 then -(realisticParams r).seasonality_amp
  else if m = 12 ∨ m = 1 ∨ m = 2 then -(realisticParams r).seasonality_amp * 0.7
  else 0

/-- expected = base + treatment + slope_change + seasonality
+ competitor + gas_effect + winter_effect. -/
noncomputable def expectedR (r : Route) (i d : ℕ) : ℝ :=
  (((realisticParams r).baseline + (realisticParams r).pre_trend * (i : ℚ)
      + (realisticParams r).treatment_effect * (postIntervention d : ℚ)
      + (realisticParams r).slope_change * wsiR d
      + seasonalityR r d + apply_competitor_effect d r : ℚ) : ℝ)
    + apply_gas_spike_effect d r + ((apply_severe_winter_effect d r : ℚ) : ℝ)

noncomputable def round1R (x : ℝ) : ℝ := ((round (10 * x) : ℤ) : ℝ) / 10

structure RealisticRow where
  date : ℕ
  route_type : String
  avg_ridership : ℝ
  post_intervention : ℕ
  time_since_intervention : ℚ

/-- One realistic observation: actual = expected + noise is clamped to a
minimum of 0 and then rounded to one decimal. -/
noncomputable def realisticRow (noise : ℝ) (r : Route) (i d : ℕ) : RealisticRow :=
  { date := d
    route_type := routeName r
    avg_ridership := round1R (max 0 (expectedR r i d + noise))
    post_intervention := postIntervention d
    time_since_intervention := wsiR d }

noncomputable def realisticRows (noise : ℕ → ℝ) (r : Route) : List RealisticRow :=
  buildRows (fun i d => realisticRow (noise i) r i d) 0 dates

/-- All realistic rows in generation order (route-major, chronological). -/
noncomputable def realisticData (noise : Route → ℕ → ℝ) : List RealisticRow :=
  realisticRows (noise .Downtown) .Downtown
    ++ realisticRows (noise .Suburban) .Suburban
    ++ realisticRows (noise .CrossTown) .CrossTown

/-! ### Row membership helpers -/

theorem mem_baselineData {noise : Route → ℕ → ℚ} {row : BaselineRow}
    (h : row ∈ baselineData noise) :
    ∃ r j d, d ∈ dates ∧ row = baselineRow (noise r j) r j d := by
  unfold baselineData baselineRows at h
  rcases List.mem_append.mp h with h12 | h3
  · rcases List.mem_append.mp h12 with h | h
    · obtain ⟨j, d, hd, hrow⟩ := mem_buildRows _ dates 0 _ h
      exact ⟨.Downtown, j, d, hd, hrow⟩
    · obtain ⟨j, d, hd, hrow⟩ := mem_buildRows _ dates 0 _ h
      exact ⟨.Suburban, j, d, hd, hrow⟩
  · obtain ⟨j, d, hd, hrow⟩ := mem_buildRows _ dates 0 _ h3
    exact ⟨.CrossTown, j, d, hd, hrow⟩

theorem mem_realisticData {noise : Route → ℕ → ℝ} {row : RealisticRow}
    (h : row ∈ realisticData noise) :
    ∃ r j d, d ∈ dates ∧ row = realisticRow (noise r j) r j d := by
  unfold realisticData realisticRows at h
  rcases List.mem_append.mp h with h12 | h3
  · rcases List.mem_append.mp h12 with h | h
    · obtain ⟨j, d, hd, hrow⟩ := mem_buildRows _ dates 0 _ h
      exact ⟨.Downtown, j, d, hd, hrow⟩
    · obtain ⟨j, d, hd, hrow⟩ := mem_buildRows _ dates 0 _ h
      exact ⟨.Suburban, j, d, hd, hrow⟩
  · obtain ⟨j, d, hd, hrow⟩ := mem_buildRows _ dates 0 _ h3
    exact ⟨.CrossTown, j, d, hd, hrow⟩

theorem round1R_nonneg {x : ℝ} (h : 0 ≤ x) : 0 ≤ round1R x := by
  unfold round1R
  have hr : (0 : ℤ) ≤ round (10 * x) := by
    rw [round_eq]
    exact Int.floor_nonneg.mpr (by linarith)
  have hr2 : (0 : ℝ) ≤ ((round (10 * x) : ℤ) : ℝ) := by exact_mod_cast hr
  linarith

/-! ### Claim C1 -/

/-- C1: every row of the realistic dataset has ridership_value >= 0, because
the noisy value is clamped to a minimum of 0 before rounding to one decimal. -/
theorem c1_realistic_ridership_nonneg (noise : Route → ℕ → ℝ) :
    ∀ row ∈ realisticData noise, 0 ≤ row.avg_ridership := by
  intro row hmem
  obtain ⟨r, j, d, _, hrow⟩ := mem_realisticData hmem
  rw [hrow]
  show 0 ≤ round1R (max 0 (expectedR r j d + noise r j))
  exact round1R_nonneg (le_max_left 0 _)

theorem realisticRows_getElem_zero (noise : ℕ → ℝ) (r : Route) :
    (realisticRows noise r)[0]? = some (realisticRow (noise 0) r 0 5) := by
  unfold realisticRows
  rw [buildRows_getElem?, dates_getElem? (by norm_num : 0 < 261)]
  simp only [Option.map_some']

theorem baselineRows_getElem_zero (noise : ℕ → ℚ) (r : Route) :
    (baselineRows noise r)[0]? = some (baselineRow (noise 0) r 0 5) := by
  unfold baselineRows
  rw [buildRows_getElem?, dates_getElem? (by norm_num : 0 < 261)]
  simp only [Option.map_some']

theorem c1_realistic_ridership_nonneg_witness :
    0 ≤ (realisticRow 0 .Downtown 0 5).avg_ridership := by
  refine c1_realistic_ridership_nonneg (fun _ _ => 0) _ ?_
  apply List.mem_append.mpr
  left
  apply List.mem_append.mpr
  left
  exact List.getElem?_mem (realisticRows_getElem_zero (fun _ => 0) .Downtown)

/-! ### Claim C2 -/

/-- C2: in both generators, post_intervention is 0 for rows dated strictly
before the intervention date and 1 for rows dated on or after it. -/
theorem c2_post_intervention_indicator (noiseB : Route → ℕ → ℚ)
    (noiseR : Route → ℕ → ℝ) :
    (∀ row ∈ baselineData noiseB,
        (row.date < INTERVENTION_DATE → row.post_intervention = 0)
      ∧ (INTERVENTION_DATE ≤ row.date → row.post_intervention = 1))
  ∧ (∀ row ∈ realisticData noiseR,
        (row.date < INTERVENTION_DATE → row.post_intervention = 0)
      ∧ (INTERVENTION_DATE ≤ row.date → row.post_intervention = 1)) := by
  constructor
  · intro row hmem
    obtain ⟨r, j, d, _, hrow⟩ := mem_baselineData hmem
    rw [hrow]
    simp only [baselineRow, postIntervention]
    constructor
    · intro h; rw [if_neg (by omega)]
    · intro h; rw [if_pos h]
  · intro row hmem
    obtain ⟨r, j, d, _, hrow⟩ := mem_realisticData hmem
    rw [hrow]
    simp only [realisticRow, postIntervention]
    constructor
    · intro h; rw [if_neg (by omega)]
    · intro h; rw [if_pos h]

theorem c2_post_intervention_indicator_witness :
    (baselineRow 0 .Downtown 0 5).post_intervention = 0 := by
  have hmem : baselineRow 0 .Downtown 0 5 ∈ baselineData (fun _ _ => 0) := by
    apply List.mem_append.mpr
    left
    apply List.mem_append.mpr
    left
    exact List.getElem?_mem (baselineRows_getElem_zero (fun _ => 0) .Downtown)
  exact ((c2_post_intervention_indicator (fun _ _ => 0) (fun _ _ => 0)).1 _ hmem).1
    (by rw [INTERVENTION_DATE_eq]; show (5 : ℕ) < 1461; omega)

/-! ### Claim C4 -/

/-- C4: the competitor-launch confounder is 0 strictly before its trigger
date, equals the per-route maximum scaled by weeks-elapsed / ramp-weeks
within the 8-week (56-day) ramp window, and equals the per-route maximum for
all later dates. -/
theorem c4_competitor_effect_shape (d : ℕ) (r : Route) :
    (d < COMPETITOR_DATE → apply_competitor_effect d r = 0)
  ∧ (COMPETITOR_DATE ≤ d → d ≤ COMPETITOR_DATE + 56 →
      apply_competitor_effect d r
        = competitorMax r
            * ((((d : ℚ) - (COMPETITOR_DATE : ℚ)) / 7) / COMPETITOR_RAMP_WEEKS))
  ∧ (COMPETITOR_DATE + 56 < d → apply_competitor_effect d r = competitorMax r) := by
  refine ⟨?_, ?_, ?_⟩
  · intro h
    simp only [apply_competitor_effect, if_pos h]
  · intro h1 h2
    have hd : (d : ℚ) ≤ (COMPETITOR_DATE : ℚ) + 56 := by exact_mod_cast h2
    have hcond : ((d : ℚ) - (COMPETITOR_DATE : ℚ)) / 7 ≤ COMPETITOR_RAMP_WEEKS := by
      rw [div_le_iff₀ (by norm_num : (0 : ℚ) < 7)]
      unfold COMPETITOR_RAMP_WEEKS
      linarith
    simp only [apply_competitor_effect, if_neg (by omega : ¬ d < COMPETITOR_DATE),
      if_pos hcond]
  · intro h1
    have hd : (COMPETITOR_DATE : ℚ) + 56 < (d : ℚ) := by exact_mod_cast h1
    have hcond : ¬ ((d : ℚ) - (COMPETITOR_DATE : ℚ)) / 7 ≤ COMPETITOR_RAMP_WEEKS := by
      rw [div_le_iff₀ (by norm_num : (0 : ℚ) < 7)]
      unfold COMPETITOR_RAMP_WEEKS
      push_neg
      linarith
    simp only [apply_competitor_effect, if_neg (by omega : ¬ d < COMPETITOR_DATE),
      if_neg hcond]

theorem c4_competitor_effect_shape_witness :
    apply_competitor_effect 0 .Downtown = 0 :=
  (c4_competitor_effect_shape 0 .Downtown).1
    (by rw [COMPETITOR_DATE_eq]; omega)

/-! ### Claim C10 -/

/-- C10: the gas-spike confounder contribution is non-negative for every
date and route, and every per-route peak is strictly positive, so this
confounder only ever increases expected ridership. -/
theorem c10_gas_spike_nonneg (d : ℕ) (r : Route) :
    0 ≤ apply_gas_spike_effect d r ∧ 0 < gasPeak r := by
  constructor
  · simp only [apply_gas_spike_effect]
    split
    · exact le_refl 0
    · rename_i h
      push_neg at h
      obtain ⟨h1, h2⟩ := h
      have hd1 : (GAS_START : ℝ) ≤ (d : ℝ) := by exact_mod_cast h1
      have hd2 : (d : ℝ) ≤ (GAS_END : ℝ) := by exact_mod_cast h2
      have hgd : (GAS_END : ℝ) = (GAS_START : ℝ) + 112 := by
        rw [GAS_START_eq, GAS_END_eq]; norm_num
      apply mul_nonneg
      · have : (0 : ℚ) ≤ gasPeak r := by cases r <;> norm_num [gasPeak]
        exact_mod_cast this
      · apply Real.sin_nonneg_of_nonneg_of_le_pi
        · apply mul_nonneg _ Real.pi_pos.le
          apply div_nonneg (div_nonneg (by linarith) (by norm_num))
          rw [show GAS_DURATION_WEEKS = 16 from rfl]
          norm_num
        · have hp : ((d : ℝ) - (GAS_START : ℝ)) / 7 / (GAS_DURATION_WEEKS : ℝ) ≤ 1 := by
            rw [show GAS_DURATION_WEEKS = 16 from rfl]
            rw [div_div, div_le_one (by norm_num : (0 : ℝ) < 7 * (16 : ℕ))]
            push_cast
            linarith
          calc ((d : ℝ) - (GAS_START : ℝ)) / 7 / (GAS_DURATION_WEEKS : ℝ) * Real.pi
              ≤ 1 * Real.pi := mul_le_mul_of_nonneg_right hp Real.pi_pos.le
            _ = Real.pi := one_mul _
  · cases r <;> norm_num [gasPeak]

/-! ### Helpers about the intervention variables on and off the grid -/

theorem postIntervention_eq_zero {d : ℕ} (h : d < INTERVENTION_DATE) :
    postIntervention d = 0 := by
  unfold postIntervention
  rw [if_neg (by omega)]

theorem postIntervention_eq_one {d : ℕ} (h : INTERVENTION_DATE ≤ d) :
    postIntervention d = 1 := by
  unfold postIntervention
  rw [if_pos h]

theorem tsiRaw_nonneg (d : ℕ) : 0 ≤ tsiRaw d := le_max_left 0 _

theorem tsiRaw_eq_zero {d : ℕ} (h : d < INTERVENTION_DATE) : tsiRaw d = 0 := by
  unfold tsiRaw
  rw [max_eq_left]
  apply div_nonpos_of_nonpos_of_nonneg _ (by norm_num)
  have : (d : ℚ) ≤ (INTERVENTION_DATE : ℚ) := by exact_mod_cast h.le
  linarith

theorem pyInt_zero : pyInt 0 = 0 := by
  unfold pyInt
  rw [if_pos le_rfl]
  exact Int.floor_zero

theorem pyInt_nonneg {q : ℚ} (h : 0 ≤ q) : 0 ≤ pyInt q := by
  unfold pyInt
  rw [if_pos h]
  exact Int.floor_nonneg.mpr h

/-- On the weekly grid, weeks_since_intervention is the natural number
k - 208 (and in particular 0 before the intervention at grid index 208). -/
theorem wsiR_grid (k : ℕ) : wsiR (5 + 7 * k) = ((k - 208 : ℕ) : ℚ) := by
  by_cases h : 208 ≤ k
  · have hpost : postIntervention (5 + 7 * k) = 1 :=
      postIntervention_eq_one (by rw [INTERVENTION_DATE_eq]; omega)
    unfold wsiR
    rw [hpost, if_pos rfl]
    unfold tsiRaw
    have hsub : ((5 + 7 * k : ℕ) : ℚ) - (INTERVENTION_DATE : ℚ)
        = 7 * ((k - 208 : ℕ) : ℚ) := by
      rw [INTERVENTION_DATE_eq]
      push_cast [h]
      ring
    rw [hsub]
    rw [max_eq_right]
    · field_simp
    · positivity
  · have hpost : postIntervention (5 + 7 * k) = 0 :=
      postIntervention_eq_zero (by rw [INTERVENTION_DATE_eq]; omega)
    unfold wsiR
    rw [hpost]
    have h0 : k - 208 = 0 := by omega
    rw [h0]
    norm_num

theorem baselineRows_getElem?_eq (noise : ℕ → ℚ) (r : Route) {k : ℕ} (h : k < 261) :
    (baselineRows noise r)[k]? = some (baselineRow (noise k) r k (5 + 7 * k)) := by
  unfold baselineRows
  rw [buildRows_getElem?, dates_getElem? h]
  simp only [Option.map_some', Nat.zero_add]

theorem realisticRows_getElem?_eq (noise : ℕ → ℝ) (r : Route) {k : ℕ} (h : k < 261) :
    (realisticRows noise r)[k]? = some (realisticRow (noise k) r k (5 + 7 * k)) := by
  unfold realisticRows
  rw [buildRows_getElem?, dates_getElem? h]
  simp only [Option.map_some', Nat.zero_add]

/-! ### Claim C3 -/

/-- The combined seasonal adjustment of the baseline script (summer dip then
winter dip), written as a sum of the two conditional offsets. -/
def seasonalAdjB (d : ℕ) : ℚ :=
  (if monthOf d = 6 ∨ monthOf d = 7 ∨ monthOf d = 8 then -30 else 0)
    + (if monthOf d = 12 ∨ monthOf d = 1 then -20 else 0)

/-- C3: in both generators the pre-noise expected value starts from
base_level + weekly_trend * time_index (plus the seasonal and, for the
realistic script, confounder terms); on or after the intervention date it
additionally includes treatment_effect plus post_trend_change multiplied by
weeks_since_intervention, and before the intervention neither treatment term
is present. -/
theorem c3_expected_decomposition (r : Route) (i d : ℕ) :
    (d < INTERVENTION_DATE →
        ridershipPreNoiseB r i d
          = (baselineParams r).base_ridership
            + (baselineParams r).pre_trend * (i : ℚ) + seasonalAdjB d
      ∧ expectedR r i d
          = (((realisticParams r).baseline + (realisticParams r).pre_trend * (i : ℚ)
              + seasonalityR r d + apply_competitor_effect d r : ℚ) : ℝ)
            + apply_gas_spike_effect d r + ((apply_severe_winter_effect d r : ℚ) : ℝ))
  ∧ (INTERVENTION_DATE ≤ d →
        ridershipPreNoiseB r i d
          = (baselineParams r).base_ridership
            + (baselineParams r).pre_trend * (i : ℚ) + seasonalAdjB d
            + (baselineParams r).treatment_effect
            + (baselineParams r).slope_change * tsiRaw d
      ∧ expectedR r i d
          = (((realisticParams r).baseline + (realisticParams r).pre_trend * (i : ℚ)
              + (realisticParams r).treatment_effect
              + (realisticParams r).slope_change * tsiRaw d
              + seasonalityR r d + apply_competitor_effect d r : ℚ) : ℝ)
            + apply_gas_spike_effect d r + ((apply_severe_winter_effect d r : ℚ) : ℝ)) := by
  constructor
  · intro h
    have hpost := postIntervention_eq_zero h
    constructor
    · simp only [ridershipPreNoiseB, seasonalAdjB, hpost]
      norm_num
      split_ifs <;> ring
    · simp only [expectedR, wsiR, hpost]
      norm_num
  · intro h
    have hpost := postIntervention_eq_one h
    constructor
    · simp only [ridershipPreNoiseB, seasonalAdjB, hpost]
      norm_num
      split_ifs <;> ring
    · simp only [expectedR, wsiR, hpost]
      norm_num

theorem c3_expected_decomposition_witness :
    ridershipPreNoiseB .Downtown 0 5
      = (baselineParams .Downtown).base_ridership
        + (baselineParams .Downtown).pre_trend * ((0 : ℕ) : ℚ) + seasonalAdjB 5 :=
  ((c3_expected_decomposition .Downtown 0 5).1
    (by rw [INTERVENTION_DATE_eq]; omega)).1

/-! ### Claim C6 -/

/-- C6: in both generators the recorded weeks_since_intervention value is a
non-negative integer value, and it is zero for every row dated before the
intervention (the baseline script stores an int; the realistic script stores
(date - intervention_date).days / 7, integer-valued on the Monday grid). -/
theorem c6_wsi_nonneg_integer (noiseB : Route → ℕ → ℚ) (noiseR : Route → ℕ → ℝ) :
    (∀ row ∈ baselineData noiseB,
        0 ≤ row.time_since_intervention
      ∧ (row.date < INTERVENTION_DATE → row.time_since_intervention = 0))
  ∧ (∀ row ∈ realisticData noiseR,
        (∃ k : ℕ, row.time_since_intervention = (k : ℚ))
      ∧ (row.date < INTERVENTION_DATE → row.time_since_intervention = 0)) := by
  constructor
  · intro row hmem
    obtain ⟨r, j, d, _, hrow⟩ := mem_baselineData hmem
    rw [hrow]
    simp only [baselineRow]
    constructor
    · exact pyInt_nonneg (tsiRaw_nonneg d)
    · intro h
      rw [tsiRaw_eq_zero h, pyInt_zero]
  · intro row hmem
    obtain ⟨r, j, d, hd, hrow⟩ := mem_realisticData hmem
    obtain ⟨k, _, rfl⟩ := mem_dates hd
    rw [hrow]
    simp only [realisticRow]
    constructor
    · exact ⟨k - 208, wsiR_grid k⟩
    · intro h
      unfold wsiR
      rw [postIntervention_eq_zero h]
      norm_num

theorem c6_wsi_nonneg_integer_witness :
    0 ≤ (baselineRow 0 .Downtown 0 5).time_since_intervention := by
  have hmem : baselineRow 0 .Downtown 0 5 ∈ baselineData (fun _ _ => 0) := by
    apply List.mem_append.mpr
    left
    apply List.mem_append.mpr
    left
    exact List.getElem?_mem (baselineRows_getElem_zero (fun _ => 0) .Downtown)
  exact ((c6_wsi_nonneg_integer (fun _ _ => 0) (fun _ _ => 0)).1 _ hmem).1

/-! ### Claim C7 -/

/-- C7: for every route the recorded time_index sequence is exactly
0, 1, ..., n-1, where n is the number of 7-day-spaced dates from the start
date through the end date inclusive, and the date grid is exactly those n
weekly dates. -/
theorem c7_time_index_contiguous (noise : ℕ → ℚ) (r : Route) :
    (baselineRows noise r).map (fun row => row.time)
      = List.range ((END_DATE - START_DATE) / 7 + 1)
  ∧ dates = (List.range ((END_DATE - START_DATE) / 7 + 1)).map
      (fun i => START_DATE + 7 * i) := by
  have hn : (END_DATE - START_DATE) / 7 + 1 = 261 := by
    rw [END_DATE_eq, START_DATE_eq]
  constructor
  · unfold baselineRows
    rw [buildRows_map_index _ _ (fun i d => rfl), dates_length, hn,
      List.range_eq_range']
  · rw [hn, START_DATE_eq, dates_eq]

/-! ### Claim C9 -/

/-- C9: the intervention date 2024-01-01 lies on the weekly Monday grid (at
index 208); in both generators the row at that index has post_intervention 1
and weeks_since_intervention 0, while every earlier row has
post_intervention 0 and weeks_since_intervention 0 as well - so a value of 0
does not by itself separate pre-intervention rows from the first
post-intervention row. -/
theorem c9_intervention_on_grid (noiseB : ℕ → ℚ) (noiseR : ℕ → ℝ) (r : Route) :
    dates[208]? = some INTERVENTION_DATE
  ∧ (∀ row : BaselineRow, (baselineRows noiseB r)[208]? = some row →
      row.post_intervention = 1 ∧ row.time_since_intervention = 0)
  ∧ (∀ row : RealisticRow, (realisticRows noiseR r)[208]? = some row →
      row.post_intervention = 1 ∧ row.time_since_intervention = 0)
  ∧ (∀ k, k < 208 → ∀ row : BaselineRow, (baselineRows noiseB r)[k]? = some row →
      row.post_intervention = 0 ∧ row.time_since_intervention = 0)
  ∧ (∀ k, k < 208 → ∀ row : RealisticRow, (realisticRows noiseR r)[k]? = some row →
      row.post_intervention = 0 ∧ row.time_since_intervention = 0) := by
  have hI : INTERVENTION_DATE = 5 + 7 * 208 := by rw [INTERVENTION_DATE_eq]
  refine ⟨?_, ?_, ?_, ?_, ?_⟩
  · rw [dates_getElem? (by norm_num : 208 < 261), hI]
  · intro row hrow
    rw [baselineRows_getElem?_eq noiseB r (by norm_num : 208 < 261)] at hrow
    cases hrow
    simp only [baselineRow]
    constructor
    · exact postIntervention_eq_one (by omega)
    · have : tsiRaw (5 + 7 * 208) = 0 := by
        unfold tsiRaw
        rw [hI]
        norm_num
      rw [this, pyInt_zero]
  · intro row hrow
    rw [realisticRows_getElem?_eq noiseR r (by norm_num : 208 < 261)] at hrow
    cases hrow
    simp only [realisticRow]
    constructor
    · exact postIntervention_eq_one (by omega)
    · rw [wsiR_grid]
      norm_num
  · intro k hk row hrow
    rw [baselineRows_getElem?_eq noiseB r (by omega : k < 261)] at hrow
    cases hrow
    simp only [baselineRow]
    have hlt : 5 + 7 * k < INTERVENTION_DATE := by omega
    exact ⟨postIntervention_eq_zero hlt, by rw [tsiRaw_eq_zero hlt, pyInt_zero]⟩
  · intro k hk row hrow
    rw [realisticRows_getElem?_eq noiseR r (by omega : k < 261)] at hrow
    cases hrow
    simp only [realisticRow]
    have hlt : 5 + 7 * k < INTERVENTION_DATE := by omega
    refine ⟨postIntervention_eq_zero hlt, ?_⟩
    rw [wsiR_grid]
    have : k - 208 = 0 := by omega
    rw [this]
    norm_num

theorem c9_intervention_on_grid_witness :
    (baselineRow 0 .Downtown 208 (5 + 7 * 208)).post_intervention = 1
      ∧ (baselineRow 0 .Downtown 208 (5 + 7 * 208)).time_since_intervention = 0 :=
  (c9_intervention_on_grid (fun _ => 0) (fun _ => 0) .Downtown).2.1 _
    (baselineRows_getElem?_eq (fun _ => 0) .Downtown (by norm_num : 208 < 261))

/-! ### Claim C5 -/

theorem gasPeak_pos (r : Route) : (0 : ℝ) < (gasPeak r : ℚ) := by
  have : (0 : ℚ) < gasPeak r := by cases r <;> norm_num [gasPeak]
  exact_mod_cast this

/-- Inside the window the gas-spike effect is the half-sine bell
peak * sin((elapsed days / 112) * pi). -/
theorem gas_inside {d : ℕ} (h1 : GAS_START ≤ d) (h2 : d ≤ GAS_END) (r : Route) :
    apply_gas_spike_effect d r
      = (gasPeak r : ℝ)
        * Real.sin ((((d : ℝ) - (GAS_START : ℝ)) / 112) * Real.pi) := by
  simp only [apply_gas_spike_effect]
  rw [if_neg (by omega)]
  have hGDW : ((GAS_DURATION_WEEKS : ℕ) : ℝ) = 16 := by
    norm_num [GAS_DURATION_WEEKS]
  rw [hGDW]
  congr 2
  ring

/-- C5: the gas-spike confounder is 0 outside the 16-week (112-day) window;
inside it equals peak * sin(progress * pi) with progress the fractional
elapsed time; it is symmetric about the window midpoint, is 0 at both window
endpoints, equals the peak at the midpoint, and strictly rises on the first
half of the window. -/
theorem c5_gas_spike_shape (r : Route) :
    (∀ d : ℕ, d < GAS_START ∨ GAS_END < d → apply_gas_spike_effect d r = 0)
  ∧ (∀ d : ℕ, GAS_START ≤ d → d ≤ GAS_END →
      apply_gas_spike_effect d r
        = (gasPeak r : ℝ)
          * Real.sin ((((d : ℝ) - (GAS_START : ℝ)) / 112) * Real.pi))
  ∧ (∀ t : ℕ, t ≤ 56 →
      apply_gas_spike_effect ((GAS_START + GAS_END) / 2 + t) r
        = apply_gas_spike_effect ((GAS_START + GAS_END) / 2 - t) r)
  ∧ apply_gas_spike_effect ((GAS_START + GAS_END) / 2) r = (gasPeak r : ℝ)
  ∧ apply_gas_spike_effect GAS_START r = 0
  ∧ apply_gas_spike_effect GAS_END r = 0
  ∧ (∀ d1 d2 : ℕ, GAS_START ≤ d1 → d1 < d2 → d2 ≤ (GAS_START + GAS_END) / 2 →
      apply_gas_spike_effect d1 r < apply_gas_spike_effect d2 r) := by
  have hs : GAS_START = 790 := GAS_START_eq
  have he : GAS_END = 902 := GAS_END_eq
  have hmid : (GAS_START + GAS_END) / 2 = 846 := by rw [hs, he]
  refine ⟨?_, ?_, ?_, ?_, ?_, ?_, ?_⟩
  · intro d h
    simp only [apply_gas_spike_effect]
    rw [if_pos h]
  · intro d h1 h2
    exact gas_inside h1 h2 r
  · intro t ht
    rw [hmid]
    rw [gas_inside (by omega) (by omega) r, gas_inside (by omega) (by omega) r]
    congr 1
    have hc1 : ((846 + t : ℕ) : ℝ) - (GAS_START : ℝ) = 56 + (t : ℝ) := by
      rw [hs]; push_cast; ring
    have hc2 : ((846 - t : ℕ) : ℝ) - (GAS_START : ℝ) = 56 - (t : ℝ) := by
      rw [hs]; push_cast [Nat.cast_sub (by omega : t ≤ 846)]; ring
    rw [hc1, hc2]
    calc Real.sin ((56 + (t : ℝ)) / 112 * Real.pi)
        = Real.sin (Real.pi - (56 + (t : ℝ)) / 112 * Real.pi) :=
          (Real.sin_pi_sub _).symm
      _ = Real.sin ((56 - (t : ℝ)) / 112 * Real.pi) := by congr 1; ring
  · rw [hmid, gas_inside (by omega) (by omega) r]
    have : (((846 : ℕ) : ℝ) - (GAS_START : ℝ)) / 112 * Real.pi = Real.pi / 2 := by
      rw [hs]; push_cast; ring
    rw [this, Real.sin_pi_div_two, mul_one]
  · rw [gas_inside le_rfl (by omega) r]
    have : (((GAS_START : ℕ) : ℝ) - (GAS_START : ℝ)) / 112 * Real.pi = 0 := by
      ring_nf
    rw [this, Real.sin_zero, mul_zero]
  · rw [gas_inside (by omega) le_rfl r]
    have : (((GAS_END : ℕ) : ℝ) - (GAS_START : ℝ)) / 112 * Real.pi = Real.pi := by
      rw [hs, he]; push_cast; ring
    rw [this, Real.sin_pi, mul_zero]
  · intro d1 d2 h1 h12 h2
    rw [hmid] at h2
    rw [gas_inside (by omega) (by omega) r, gas_inside (by omega) (by omega) r]
    apply mul_lt_mul_of_pos_left _ (gasPeak_pos r)
    have hb1 : (790 : ℝ) ≤ (d1 : ℝ) := by
      rw [hs] at h1; exact_mod_cast h1
    have hb2 : (d2 : ℝ) ≤ 846 := by exact_mod_cast h2
    have hb12 : (d1 : ℝ) < (d2 : ℝ) := by exact_mod_cast h12
    have hmem : ∀ x : ℝ, 790 ≤ x → x ≤ 846 →
        (x - (GAS_START : ℝ)) / 112 * Real.pi ∈
          Set.Icc (-(Real.pi / 2)) (Real.pi / 2) := by
      intro x hx1 hx2
      have hcast : (GAS_START : ℝ) = 790 := by rw [hs]; norm_num
      rw [hcast, Set.mem_Icc]
      have hq1 : (0 : ℝ) ≤ (x - 790) / 112 := by
        apply div_nonneg _ (by norm_num)
        linarith
      have hq2 : (x - 790) / 112 ≤ 1 / 2 := by
        rw [div_le_div_iff₀ (by norm_num) (by norm_num)]
        linarith
      constructor
      · have h0 : (0 : ℝ) ≤ (x - 790) / 112 * Real.pi :=
          mul_nonneg hq1 Real.pi_pos.le
        have hpi2 : (0 : ℝ) ≤ Real.pi / 2 := by positivity
        linarith
      · have hb := mul_le_mul_of_nonneg_right hq2 Real.pi_pos.le
        linarith
    apply Real.strictMonoOn_sin (hmem _ hb1 (by linarith))
      (hmem _ (by linarith) hb2)
    have hcast : (GAS_START : ℝ) = 790 := by rw [hs]; norm_num
    rw [hcast]
    apply mul_lt_mul_of_pos_right _ Real.pi_pos
    linarith

theorem c5_gas_spike_shape_witness :
    apply_gas_spike_effect 0 .Downtown = 0 :=
  (c5_gas_spike_shape .Downtown).1 0 (Or.inl (by rw [GAS_START_eq]; omega))

/-! ### Claim C8 -/

theorem routeName_inj {r1 r2 : Route} (h : routeName r1 = routeName r2) :
    r1 = r2 := by
  cases r1 <;> cases r2 <;> first
    | rfl
    | exact absurd h (by decide)

/-- Within one route block, exactly the rows whose date matches are counted,
once per occurrence of the date in the grid. -/
theorem countP_baselineRows (noise : ℕ → ℚ) (rb r : Route) (d : ℕ)
    (hd : d ∈ dates) :
    (baselineRows noise rb).countP
        (fun row => row.route_type == routeName r && row.date == d)
      = if rb = r then 1 else 0 := by
  by_cases h : rb = r
  · subst h
    rw [if_pos rfl]
    unfold baselineRows
    rw [buildRows_countP _ _ (fun x => x == d) ?_ dates 0]
    · rw [← List.count_eq_countP]
      exact List.count_eq_one_of_mem dates_nodup hd
    · intro i x
      simp [baselineRow]
  · rw [if_neg h]
    unfold baselineRows
    rw [buildRows_countP _ _ (fun _ => false) ?_ dates 0]
    · simp
    · intro i x
      have hne : routeName rb ≠ routeName r := fun hEq => h (routeName_inj hEq)
      simp [baselineRow, hne]

/-- C8: the baseline table has exactly the columns date, route_type,
avg_ridership, post_intervention, time, time_since_intervention; the written
rows are the generated rows sorted by route_type then date, and there is
exactly one row per (route, week) pair. -/
theorem c8_baseline_output_shape (noise : Route → ℕ → ℚ) :
    baselineColumns = ["date", "route_type", "avg_ridership",
      "post_intervention", "time", "time_since_intervention"]
  ∧ List.Sorted pandasKeyLE (sortedBaselineData noise)
  ∧ (sortedBaselineData noise).Perm (baselineData noise)
  ∧ (sortedBaselineData noise).length = 3 * dates.length
  ∧ (∀ r : Route, ∀ d ∈ dates,
      (sortedBaselineData noise).countP
        (fun row => row.route_type == routeName r && row.date == d) = 1) := by
  have hperm : (sortedBaselineData noise).Perm (baselineData noise) :=
    List.perm_insertionSort pandasKeyLE (baselineData noise)
  refine ⟨rfl, ?_, hperm, ?_, ?_⟩
  · exact List.sorted_insertionSort pandasKeyLE (baselineData noise)
  · rw [hperm.length_eq]
    unfold baselineData baselineRows
    rw [List.length_append, List.length_append,
      buildRows_length, buildRows_length, buildRows_length]
    ring
  · intro r d hd
    rw [hperm.countP_eq]
    unfold baselineData
    rw [List.countP_append, List.countP_append,
      countP_baselineRows _ _ r d hd, countP_baselineRows _ _ r d hd,
      countP_baselineRows _ _ r d hd]
    cases r <;> simp

theorem c8_baseline_output_shape_witness :
    (sortedBaselineData (fun _ _ => 0)).countP
      (fun row => row.route_type == routeName .Downtown && row.date == 5) = 1 :=
  (c8_baseline_output_shape (fun _ _ => 0)).2.2.2.2 .Downtown 5 (by decide)

end TransitITS
